import Mathlib

/-!
Verification development for the metrics subsystem of a voice-agent stack:
pluggable storage backends (in-memory, append-only JSONL file, redis-style
key-value store), a sampling metrics collector, summary aggregation, and the
HTTP query service endpoints.

Shallow embedding conventions
* real-valued quantities (timestamps, latencies, rates) are rationals;
* randomness (random.random in the sampling gate) and wall-clock reads
  (time.time) are passed in as explicit arguments;
* a Python dict carrying a metric is a record with the two keys the storage
  layer inspects (call_id, metric_type) modelled as optional fields plus an
  abstract payload holding the remaining fields;
* async functions are pure state-passing functions; a fallible backend write
  returns Except;
* JSON serialisation of the file backend is treated as the identity on
  records (json.dumps followed by json.loads round-trips the dict).
-/

namespace Metrics

/-- Python truthiness of an optional string argument: None and the empty
string are falsy, as in the source conditions of the form if call_id: . -/
def pyTruthy : Option String → Bool
  | none => false
  | some s => s ≠ ""

/-- The source expression applied to the collector state in record_llm_metric
and friends, line 221 of metrics_collector.py: self.current_call_id or
"unknown". None and the empty string both fall back to "unknown". -/
def pyOrUnknown : Option String → String
  | none => "unknown"
  | some s => if s = "" then "unknown" else s

/-- The source expression call_id or self.current_call_id in
MetricsCollector.get_call_metrics (metrics_collector.py line 300): a falsy
first argument (None or the empty string) falls back to the second. -/
def pyOrOpt : Option String → Option String → Option String
  | none, d => d
  | some s, d => if s = "" then d else some s

/-- A metric dict as handled by the storage layer. The storage code reads the
dict only through m.get("call_id") and m.get("metric_type"); those two keys
are modelled as optional fields (none when the key is absent) and every other
key is kept in an abstract payload. -/
structure MetricDict (α : Type) where
  call_id : Option String
  metric_type : Option String
  payload : α
  deriving DecidableEq, Repr

/-- The mutation metric["metric_type"] = metric_type performed by every
store_metric implementation before persisting. -/
def setMetricType (t : String) (m : MetricDict α) : MetricDict α :=
  { m with metric_type := some t }

namespace MemoryStorage

/-- MemoryStorage.store_metric (metrics_collector.py lines 74 to 76): tag the
dict with the metric type and append it to the in-memory list. -/
def store_metric (st : List (MetricDict α)) (t : String) (m : MetricDict α) :
    List (MetricDict α) :=
  st ++ [setMetricType t m]

/-- MemoryStorage.get_metrics (metrics_collector.py lines 78 to 87): start
from all stored records, filter by call_id if that argument is truthy, then
filter by metric_type if that argument is truthy. -/
def get_metrics (st : List (MetricDict α)) (call_id mt : Option String) :
    List (MetricDict α) :=
  let r1 := if pyTruthy call_id then st.filter (fun m => m.call_id == call_id) else st
  if pyTruthy mt then r1.filter (fun m => m.metric_type == mt) else r1

/-- A sequence of store_metric calls run against an initially empty
in-memory backend. -/
def run (ops : List (String × MetricDict α)) : List (MetricDict α) :=
  ops.foldl (fun st op => store_metric st op.1 op.2) []

end MemoryStorage

namespace FileStorage

/-- The state of the JSONL file: none when the file does not exist, otherwise
the list of records parsed from its lines. An empty existing file is some []. -/
abbrev State (α : Type) := Option (List (MetricDict α))

/-- FileStorage.store_metric (metrics_collector.py lines 95 to 100): tag the
dict and append one JSON line; opening in append mode creates the file when
it does not exist. -/
def store_metric (fs : State α) (t : String) (m : MetricDict α) : State α :=
  some (fs.getD [] ++ [setMetricType t m])

/-- FileStorage.get_metrics (metrics_collector.py lines 102 to 115): a missing
file (FileNotFoundError) yields the empty list; otherwise parse every line and
apply the same truthy-guarded filters as the in-memory backend. -/
def get_metrics (fs : State α) (call_id mt : Option String) :
    List (MetricDict α) :=
  match fs with
  | none => []
  | some ms =>
    let r1 := if pyTruthy call_id then ms.filter (fun m => m.call_id == call_id) else ms
    if pyTruthy mt then r1.filter (fun m => m.metric_type == mt) else r1

/-- A sequence of store_metric calls run against an initially nonexistent
file. -/
def run (ops : List (String × MetricDict α)) : State α :=
  ops.foldl (fun st op => store_metric st op.1 op.2) none

end FileStorage

namespace RedisStorage

/-- The redis keyspace restricted to the metrics: prefix, as an association
list from the call id embedded in the key metrics:{call_id} to the stored
list for that key. Each list is newest-first because writes use LPUSH. -/
abbrev State (α : Type) := List (String × List (MetricDict α))

/-- LPUSH key m: prepend to the list at the key, creating the key if absent. -/
def lpush (st : State α) (k : String) (m : MetricDict α) : State α :=
  match st with
  | [] => [(k, [m])]
  | (k', l) :: rest =>
    if k' = k then (k', m :: l) :: rest else (k', l) :: lpush rest k m

/-- RedisStorage.store_metric (metrics_collector.py lines 140 to 149): tag the
dict, compute the key from metric.get("call_id", "unknown") and LPUSH the
record onto the per-call list. The 24-hour expiry is not modelled. -/
def store_metric (st : State α) (t : String) (m : MetricDict α) : State α :=
  let m' := setMetricType t m
  lpush st (m'.call_id.getD "unknown") m'

/-- The list stored under the key for one call id, as returned by
LRANGE key 0 -1 (empty when the key is absent). -/
def listAt : State α → String → List (MetricDict α)
  | [], _ => []
  | (k', l) :: rest, k => if k' = k then l else listAt rest k

/-- RedisStorage.get_metrics (metrics_collector.py lines 151 to 169): with a
truthy call_id read exactly the list at the key metrics:{call_id} (the getD
only strips the option, the guard guarantees the argument is some nonempty
string); otherwise concatenate the lists of every metrics: key; then apply
the truthy-guarded metric_type filter. -/
def get_metrics (st : State α) (call_id mt : Option String) :
    List (MetricDict α) :=
  let metrics :=
    if pyTruthy call_id then listAt st (call_id.getD "")
    else (st.map Prod.snd).flatten
  if pyTruthy mt then metrics.filter (fun m => m.metric_type == mt) else metrics

/-- A sequence of store_metric calls run against an initially empty
keyspace. -/
def run (ops : List (String × MetricDict α)) : State α :=
  ops.foldl (fun st op => store_metric st op.1 op.2) []

end RedisStorage

/-- MetricsConfig (metrics_config.py): the fields the collector logic reads.
Connection parameters for the backends are irrelevant to the embedded
behaviour and omitted. -/
structure MetricsConfig where
  enabled : Bool := false
  storage_type : String := "memory"
  collect_llm_metrics : Bool := true
  collect_tts_metrics : Bool := true
  collect_asr_metrics : Bool := true
  collect_eou_metrics : Bool := true
  sample_rate : ℚ := 1
  deriving DecidableEq, Repr

/-- MetricsCollector._should_collect (metrics_collector.py lines 195 to 199)
with the draw of random.random() passed in as the explicit argument r (the
caller supplies 0 <= r < 1): collection is off entirely when the config is
disabled, otherwise the record survives exactly when r < sample_rate. -/
def shouldCollect (cfg : MetricsConfig) (r : ℚ) : Bool :=
  cfg.enabled && decide (r < cfg.sample_rate)

/-- The payload of one metric record: the dataclass fields of LLMMetric,
TTSMetric, ASRMetric and EOUMetric apart from call_id (which lives in the
surrounding MetricDict). -/
inductive MetricPayload where
  | llm (timestamp ttft : ℚ) (input_tokens output_tokens : Int)
      (model : String) (total_time tokens_per_second : ℚ)
  | tts (timestamp ttfb audio_duration : ℚ) (text_length : Int)
      (model voice_id : String)
  | asr (timestamp audio_duration processing_time : ℚ) (text_length : Int)
      (model language : String)
  | eou (timestamp eou_delay confidence : ℚ)
  deriving DecidableEq, Repr

/-- The dict asdict(LLMMetric(...)) built inside record_llm_metric
(metrics_collector.py lines 217 to 228): timestamp from the clock, call_id
from self.current_call_id or "unknown", and tokens_per_second derived as
output_tokens / total_time when total_time > 0 and 0 otherwise. -/
def mkLLMMetric (now : ℚ) (cur : Option String) (ttft : ℚ)
    (input_tokens output_tokens : Int) (model : String) (total_time : ℚ) :
    MetricDict MetricPayload :=
  let tokens_per_second : ℚ :=
    if total_time > 0 then (output_tokens : ℚ) / total_time else 0
  { call_id := some (pyOrUnknown cur), metric_type := none,
    payload := .llm now ttft input_tokens output_tokens model total_time
      tokens_per_second }

/-- The dict asdict(TTSMetric(...)) built inside record_tts_metric
(metrics_collector.py lines 245 to 253). -/
def mkTTSMetric (now : ℚ) (cur : Option String) (ttfb audio_duration : ℚ)
    (text_length : Int) (model voice_id : String) : MetricDict MetricPayload :=
  { call_id := some (pyOrUnknown cur), metric_type := none,
    payload := .tts now ttfb audio_duration text_length model voice_id }

/-- The dict asdict(ASRMetric(...)) built inside record_asr_metric
(metrics_collector.py lines 270 to 278). -/
def mkASRMetric (now : ℚ) (cur : Option String) (audio_duration processing_time : ℚ)
    (text_length : Int) (model language : String) : MetricDict MetricPayload :=
  { call_id := some (pyOrUnknown cur), metric_type := none,
    payload := .asr now audio_duration processing_time text_length model language }

/-- The dict asdict(EOUMetric(...)) built inside record_eou_metric
(metrics_collector.py lines 288 to 293). -/
def mkEOUMetric (now : ℚ) (cur : Option String) (eou_delay confidence : ℚ) :
    MetricDict MetricPayload :=
  { call_id := some (pyOrUnknown cur), metric_type := none,
    payload := .eou now eou_delay confidence }

/-- MetricsCollector state over the in-memory backend (the default storage,
and the one _create_storage falls back to whenever redis or file is not
selected): configuration, the mutable current call id, and the backend
list. -/
structure MetricsCollector where
  config : MetricsConfig
  current_call_id : Option String := none
  metrics : List (MetricDict MetricPayload) := []
  deriving DecidableEq, Repr

namespace MetricsCollector

/-- MetricsCollector.set_call_id (metrics_collector.py lines 201 to 203). -/
def set_call_id (c : MetricsCollector) (call_id : String) : MetricsCollector :=
  { c with current_call_id := some call_id }

/-- MetricsCollector.record_llm_metric (metrics_collector.py lines 205 to
231): return unchanged unless the llm flag is on and the sampling gate
passes; otherwise build the record and store it tagged "llm". The clock value
now and the sampling draw r are explicit. -/
def record_llm_metric (c : MetricsCollector) (now r : ℚ) (ttft : ℚ)
    (input_tokens output_tokens : Int) (model : String) (total_time : ℚ) :
    MetricsCollector :=
  if c.config.collect_llm_metrics && shouldCollect c.config r then
    let m := mkLLMMetric now c.current_call_id ttft input_tokens output_tokens
      model total_time
    { c with metrics := MemoryStorage.store_metric c.metrics "llm" m }
  else c

/-- MetricsCollector.record_tts_metric (metrics_collector.py lines 233 to
256). -/
def record_tts_metric (c : MetricsCollector) (now r : ℚ)
    (ttfb audio_duration : ℚ) (text_length : Int) (model voice_id : String) :
    MetricsCollector :=
  if c.config.collect_tts_metrics && shouldCollect c.config r then
    let m := mkTTSMetric now c.current_call_id ttfb audio_duration text_length
      model voice_id
    { c with metrics := MemoryStorage.store_metric c.metrics "tts" m }
  else c

/-- MetricsCollector.record_asr_metric (metrics_collector.py lines 258 to
281). -/
def record_asr_metric (c : MetricsCollector) (now r : ℚ)
    (audio_duration processing_time : ℚ) (text_length : Int)
    (model language : String) : MetricsCollector :=
  if c.config.collect_asr_metrics && shouldCollect c.config r then
    let m := mkASRMetric now c.current_call_id audio_duration processing_time
      text_length model language
    { c with metrics := MemoryStorage.store_metric c.metrics "asr" m }
  else c

/-- MetricsCollector.record_eou_metric (metrics_collector.py lines 283 to
296). -/
def record_eou_metric (c : MetricsCollector) (now r : ℚ)
    (eou_delay confidence : ℚ) : MetricsCollector :=
  if c.config.collect_eou_metrics && shouldCollect c.config r then
    let m := mkEOUMetric now c.current_call_id eou_delay confidence
    { c with metrics := MemoryStorage.store_metric c.metrics "eou" m }
  else c

end MetricsCollector

/-- An arbitrary storage backend whose store_metric may fail, for reasoning
about how the record paths treat backend exceptions: the write either
returns the updated backend state or raises an error message. -/
structure StorageModel (σ : Type) where
  store_metric : σ → String → MetricDict MetricPayload → Except String σ

/-- record_llm_metric over an arbitrary fallible backend. The source awaits
self.storage.store_metric with no try/except around it (metrics_collector.py
line 230), so a backend exception is returned to the awaiter unchanged. -/
def recordLLMMetricE (S : StorageModel σ) (cfg : MetricsConfig)
    (cur : Option String) (st : σ) (now r : ℚ) (ttft : ℚ)
    (input_tokens output_tokens : Int) (model : String) (total_time : ℚ) :
    Except String σ :=
  if cfg.collect_llm_metrics && shouldCollect cfg r then
    S.store_metric st "llm"
      (mkLLMMetric now cur ttft input_tokens output_tokens model total_time)
  else .ok st

/-- record_tts_metric over an arbitrary fallible backend (no try/except at
metrics_collector.py line 255). -/
def recordTTSMetricE (S : StorageModel σ) (cfg : MetricsConfig)
    (cur : Option String) (st : σ) (now r : ℚ) (ttfb audio_duration : ℚ)
    (text_length : Int) (model voice_id : String) : Except String σ :=
  if cfg.collect_tts_metrics && shouldCollect cfg r then
    S.store_metric st "tts"
      (mkTTSMetric now cur ttfb audio_duration text_length model voice_id)
  else .ok st

/-- record_asr_metric over an arbitrary fallible backend (no try/except at
metrics_collector.py line 280). -/
def recordASRMetricE (S : StorageModel σ) (cfg : MetricsConfig)
    (cur : Option String) (st : σ) (now r : ℚ)
    (audio_duration processing_time : ℚ) (text_length : Int)
    (model language : String) : Except String σ :=
  if cfg.collect_asr_metrics && shouldCollect cfg r then
    S.store_metric st "asr"
      (mkASRMetric now cur audio_duration processing_time text_length model
        language)
  else .ok st

/-- record_eou_metric over an arbitrary fallible backend (no try/except at
metrics_collector.py line 295). -/
def recordEOUMetricE (S : StorageModel σ) (cfg : MetricsConfig)
    (cur : Option String) (st : σ) (now r : ℚ) (eou_delay confidence : ℚ) :
    Except String σ :=
  if cfg.collect_eou_metrics && shouldCollect cfg r then
    S.store_metric st "eou" (mkEOUMetric now cur eou_delay confidence)
  else .ok st

/-! Query surface: per-call metric mapping, summary and the analytics of the
HTTP service. Numeric fields of records are reached through total accessors
on the payload; each accessor models the dict lookup m["field"] that the
aggregation code performs on records of the matching kind (on a record of
another kind that lookup would raise KeyError, which the aggregation code
never does because it only traverses lists filtered to one kind; the
accessors return 0 there). -/

/-- m["ttft"] of an llm record. -/
def ttftOf : MetricPayload → ℚ
  | .llm _ ttft _ _ _ _ _ => ttft
  | _ => 0

/-- m["total_time"] of an llm record. -/
def totalTimeOf : MetricPayload → ℚ
  | .llm _ _ _ _ _ total_time _ => total_time
  | _ => 0

/-- m["tokens_per_second"] of an llm record. -/
def tokensPerSecondOf : MetricPayload → ℚ
  | .llm _ _ _ _ _ _ tps => tps
  | _ => 0

/-- m["input_tokens"] of an llm record. -/
def inputTokensOf : MetricPayload → Int
  | .llm _ _ input_tokens _ _ _ _ => input_tokens
  | _ => 0

/-- m["output_tokens"] of an llm record. -/
def outputTokensOf : MetricPayload → Int
  | .llm _ _ _ output_tokens _ _ _ => output_tokens
  | _ => 0

/-- m["ttfb"] of a tts record. -/
def ttfbOf : MetricPayload → ℚ
  | .tts _ ttfb _ _ _ _ => ttfb
  | _ => 0

/-- m["audio_duration"] of a tts or asr record. -/
def audioDurationOf : MetricPayload → ℚ
  | .tts _ _ audio_duration _ _ _ => audio_duration
  | .asr _ audio_duration _ _ _ _ => audio_duration
  | _ => 0

/-- m["processing_time"] of an asr record. -/
def processingTimeOf : MetricPayload → ℚ
  | .asr _ _ processing_time _ _ _ => processing_time
  | _ => 0

/-- m["eou_delay"] of an eou record. -/
def eouDelayOf : MetricPayload → ℚ
  | .eou _ eou_delay _ => eou_delay
  | _ => 0

/-- Python max over a list of rationals; only applied to nonempty lists by
the aggregation code (max of an empty list raises). -/
def maxQ : List ℚ → ℚ
  | [] => 0
  | x :: xs => xs.foldl max x

/-- Python min over a list of rationals; only applied to nonempty lists. -/
def minQ : List ℚ → ℚ
  | [] => 0
  | x :: xs => xs.foldl min x

/-- Python sum(...) / len(...) over a list of rationals; only applied to
nonempty lists. -/
def avgQ (l : List ℚ) : ℚ := l.sum / l.length

/-- The four per-kind record lists returned by
MetricsCollector.get_call_metrics. -/
structure CallMetrics where
  llm : List (MetricDict MetricPayload)
  tts : List (MetricDict MetricPayload)
  asr : List (MetricDict MetricPayload)
  eou : List (MetricDict MetricPayload)
  deriving DecidableEq, Repr

namespace MetricsCollector

/-- MetricsCollector.get_call_metrics (metrics_collector.py lines 298 to 312):
the requested call_id with falsy values replaced by the current call id, then
one storage query per kind. -/
def get_call_metrics (c : MetricsCollector) (call_id : Option String) :
    CallMetrics :=
  let cid := pyOrOpt call_id c.current_call_id
  { llm := MemoryStorage.get_metrics c.metrics cid (some "llm"),
    tts := MemoryStorage.get_metrics c.metrics cid (some "tts"),
    asr := MemoryStorage.get_metrics c.metrics cid (some "asr"),
    eou := MemoryStorage.get_metrics c.metrics cid (some "eou") }

end MetricsCollector

/-- The llm section of a call summary (metrics_collector.py lines 330 to
338). -/
structure LLMSummary where
  avg_ttft : ℚ
  max_ttft : ℚ
  min_ttft : ℚ
  total_input_tokens : Int
  total_output_tokens : Int
  deriving DecidableEq, Repr

/-- The tts section of a call summary (metrics_collector.py lines 341 to
348). -/
structure TTSSummary where
  avg_ttfb : ℚ
  max_ttfb : ℚ
  min_ttfb : ℚ
  total_audio_duration : ℚ
  deriving DecidableEq, Repr

/-- The asr section of a call summary (metrics_collector.py lines 351 to
358). -/
structure ASRSummary where
  avg_processing_time : ℚ
  max_processing_time : ℚ
  min_processing_time : ℚ
  total_audio_processed : ℚ
  deriving DecidableEq, Repr

/-- The eou section of a call summary (metrics_collector.py lines 361 to
367). -/
structure EOUSummary where
  avg_delay : ℚ
  max_delay : ℚ
  min_delay : ℚ
  deriving DecidableEq, Repr

/-- The object built by MetricsCollector.get_call_summary: the always-present
call_id and counts, plus one optional section per kind, present exactly when
that kind contributed at least one record (an Option field models presence of
the dict key). The timestamp field, datetime.now().isoformat(), carries no
verifiable content and is omitted. -/
structure CallSummary where
  call_id : Option String
  llm_requests : Nat
  tts_requests : Nat
  asr_requests : Nat
  eou_events : Nat
  llm : Option LLMSummary
  tts : Option TTSSummary
  asr : Option ASRSummary
  eou : Option EOUSummary
  deriving DecidableEq, Repr

namespace MetricsCollector

/-- MetricsCollector.get_call_summary (metrics_collector.py lines 314 to
369): counts for every kind, and a per-kind aggregate section added only
under the nonemptiness guards of the source (if metrics["llm"]: and so
on). -/
def get_call_summary (c : MetricsCollector) (call_id : Option String) :
    CallSummary :=
  let ms := c.get_call_metrics call_id
  let llm_ttfts := ms.llm.map (fun m => ttftOf m.payload)
  let tts_ttfbs := ms.tts.map (fun m => ttfbOf m.payload)
  let asr_times := ms.asr.map (fun m => processingTimeOf m.payload)
  let eou_delays := ms.eou.map (fun m => eouDelayOf m.payload)
  { call_id := pyOrOpt call_id c.current_call_id,
    llm_requests := ms.llm.length,
    tts_requests := ms.tts.length,
    asr_requests := ms.asr.length,
    eou_events := ms.eou.length,
    llm :=
      if ms.llm = [] then none else
        some { avg_ttft := avgQ llm_ttfts, max_ttft := maxQ llm_ttfts,
               min_ttft := minQ llm_ttfts,
               total_input_tokens := (ms.llm.map (fun m => inputTokensOf m.payload)).sum,
               total_output_tokens := (ms.llm.map (fun m => outputTokensOf m.payload)).sum },
    tts :=
      if ms.tts = [] then none else
        some { avg_ttfb := avgQ tts_ttfbs, max_ttfb := maxQ tts_ttfbs,
               min_ttfb := minQ tts_ttfbs,
               total_audio_duration := (ms.tts.map (fun m => audioDurationOf m.payload)).sum },
    asr :=
      if ms.asr = [] then none else
        some { avg_processing_time := avgQ asr_times,
               max_processing_time := maxQ asr_times,
               min_processing_time := minQ asr_times,
               total_audio_processed := (ms.asr.map (fun m => audioDurationOf m.payload)).sum },
    eou :=
      if ms.eou = [] then none else
        some { avg_delay := avgQ eou_delays, max_delay := maxQ eou_delays,
               min_delay := minQ eou_delays } }

end MetricsCollector

/-! The analytics aggregator of the query service (metrics_api.py,
get_performance_analytics). -/

/-- Python sorted(...) on rationals: an ascending stable sort. -/
def sortQ (l : List ℚ) : List ℚ := l.insertionSort (· ≤ ·)

/-- The 95th-percentile expression the analytics code computes for each kind
(metrics_api.py lines 133, 148, 160 and 171):
sorted(xs)[int(len(xs) * 0.95)] if len(xs) > 1 else xs[0].
The index int(len(xs) * 0.95) is computed by Python in binary floating point;
it coincides with the integer floor of 19 n / 20 for every list length n up
to ten million (checked exhaustively), so it is embedded as exact natural
division. The aggregation code only evaluates the expression on nonempty
lists; on [] this total model returns 0 where Python would raise. -/
def pythonP95 (l : List ℚ) : ℚ :=
  if l.length > 1 then (sortQ l).getD (19 * l.length / 20) 0 else l.getD 0 0

/-- The llm entry of the analytics response (metrics_api.py lines 130 to
137). -/
structure LLMAnalytics where
  count : Nat
  avg_ttft : ℚ
  p95_ttft : ℚ
  avg_total_time : ℚ
  total_input_tokens : Int
  total_output_tokens : Int
  deriving DecidableEq, Repr

/-- The tts entry of the analytics response (metrics_api.py lines 145 to
150). -/
structure TTSAnalytics where
  count : Nat
  avg_ttfb : ℚ
  p95_ttfb : ℚ
  total_audio_duration : ℚ
  deriving DecidableEq, Repr

/-- The asr entry of the analytics response (metrics_api.py lines 157 to
161). -/
structure ASRAnalytics where
  count : Nat
  avg_processing_time : ℚ
  p95_processing_time : ℚ
  deriving DecidableEq, Repr

/-- The eou entry of the analytics response (metrics_api.py lines 168 to
172). -/
structure EOUAnalytics where
  count : Nat
  avg_delay : ℚ
  p95_delay : ℚ
  deriving DecidableEq, Repr

/-- The analytics response object: each key is present exactly when its kind
passed the metric_type filter and had at least one record. -/
structure Analytics where
  llm : Option LLMAnalytics
  tts : Option TTSAnalytics
  asr : Option ASRAnalytics
  eou : Option EOUAnalytics
  deriving DecidableEq, Repr

/-- The grouping loop of get_performance_analytics when no call filter is
given (metrics_api.py lines 114 to 120): distribute the full record list into
the four kind buckets by the metric_type tag, preserving order. -/
def groupByType (ms : List (MetricDict MetricPayload)) : CallMetrics :=
  { llm := ms.filter (fun m => m.metric_type == some "llm"),
    tts := ms.filter (fun m => m.metric_type == some "tts"),
    asr := ms.filter (fun m => m.metric_type == some "asr"),
    eou := ms.filter (fun m => m.metric_type == some "eou") }

/-- The body of get_performance_analytics after the collector gate
(metrics_api.py lines 108 to 174): per-call mapping when call_id is truthy,
otherwise the grouped full record set; then one aggregate entry per kind,
guarded by the metric_type filter (absent or equal to the kind) and by
nonemptiness. -/
def performanceAnalytics (c : MetricsCollector)
    (call_id metric_type : Option String) : Analytics :=
  let ms :=
    if pyTruthy call_id then c.get_call_metrics call_id
    else groupByType (MemoryStorage.get_metrics c.metrics none none)
  let ttfts := ms.llm.map (fun m => ttftOf m.payload)
  let total_times := ms.llm.map (fun m => totalTimeOf m.payload)
  let ttfbs := ms.tts.map (fun m => ttfbOf m.payload)
  let durations := ms.tts.map (fun m => audioDurationOf m.payload)
  let processing_times := ms.asr.map (fun m => processingTimeOf m.payload)
  let delays := ms.eou.map (fun m => eouDelayOf m.payload)
  { llm :=
      if (!pyTruthy metric_type || metric_type == some "llm") && !(ms.llm = []) then
        some { count := ms.llm.length, avg_ttft := avgQ ttfts,
               p95_ttft := pythonP95 ttfts, avg_total_time := avgQ total_times,
               total_input_tokens := (ms.llm.map (fun m => inputTokensOf m.payload)).sum,
               total_output_tokens := (ms.llm.map (fun m => outputTokensOf m.payload)).sum }
      else none,
    tts :=
      if (!pyTruthy metric_type || metric_type == some "tts") && !(ms.tts = []) then
        some { count := ms.tts.length, avg_ttfb := avgQ ttfbs,
               p95_ttfb := pythonP95 ttfbs,
               total_audio_duration := durations.sum }
      else none,
    asr :=
      if (!pyTruthy metric_type || metric_type == some "asr") && !(ms.asr = []) then
        some { count := ms.asr.length, avg_processing_time := avgQ processing_times,
               p95_processing_time := pythonP95 processing_times }
      else none,
    eou :=
      if (!pyTruthy metric_type || metric_type == some "eou") && !(ms.eou = []) then
        some { count := ms.eou.length, avg_delay := avgQ delays,
               p95_delay := pythonP95 delays }
      else none }

/-! The query service endpoints (metrics_api.py). Every handler except the
health check begins with: if not metrics_collector: raise
HTTPException(status_code=503, ...). The global collector is an Option; a
raised HTTPException is an error constructor carrying the status code. -/

/-- The outcome of one endpoint call: a 200 response with a body, or a raised
HTTPException with its status code and detail message. -/
inductive ApiResult (α : Type) where
  | ok (body : α)
  | httpError (status : Nat) (detail : String)
  deriving DecidableEq, Repr

/-- The HTTP status of an endpoint outcome; FastAPI serves a plain return as
status 200. -/
def ApiResult.statusOf : ApiResult α → Nat
  | .ok _ => 200
  | .httpError s _ => s

/-- The body of the health check response. -/
structure HealthBody where
  status : String
  metrics_enabled : Bool
  deriving DecidableEq, Repr

namespace MetricsApi

/-- GET /health (metrics_api.py lines 46 to 49): unconditionally returns the
healthy body, reporting whether the collector was initialized. -/
def health_check (mc : Option MetricsCollector) : ApiResult HealthBody :=
  .ok { status := "healthy", metrics_enabled := mc.isSome }

/-- GET /metrics/calls/call_id (metrics_api.py lines 51 to 61). -/
def get_call_metrics (mc : Option MetricsCollector) (call_id : String) :
    ApiResult CallMetrics :=
  match mc with
  | none => .httpError 503 "Metrics collection not available"
  | some c => .ok (c.get_call_metrics (some call_id))

/-- GET /metrics/calls/call_id/summary (metrics_api.py lines 63 to 73). -/
def get_call_summary (mc : Option MetricsCollector) (call_id : String) :
    ApiResult CallSummary :=
  match mc with
  | none => .httpError 503 "Metrics collection not available"
  | some c => .ok (c.get_call_summary (some call_id))

/-- GET /metrics/calls/call_id/metric_type (metrics_api.py lines 75 to 97):
503 without a collector, 400 on an invalid metric type, otherwise the
selected kind of the per-call mapping, truncated when the limit parameter is
truthy (a limit of 0 is falsy and ignored). -/
def get_call_metrics_by_type (mc : Option MetricsCollector) (call_id : String)
    (metric_type : String) (limit : Option Nat) :
    ApiResult (List (MetricDict MetricPayload) × Nat) :=
  match mc with
  | none => .httpError 503 "Metrics collection not available"
  | some c =>
    if metric_type ∉ (["llm", "tts", "asr", "eou"] : List String) then
      .httpError 400 "Invalid metric type"
    else
      let all := c.get_call_metrics (some call_id)
      let ms :=
        if metric_type = "llm" then all.llm
        else if metric_type = "tts" then all.tts
        else if metric_type = "asr" then all.asr
        else all.eou
      let ms :=
        match limit with
        | some n => if n ≠ 0 then ms.take n else ms
        | none => ms
      .ok (ms, ms.length)

/-- GET /metrics/analytics/performance (metrics_api.py lines 99 to 176). -/
def get_performance_analytics (mc : Option MetricsCollector)
    (call_id metric_type : Option String) : ApiResult Analytics :=
  match mc with
  | none => .httpError 503 "Metrics collection not available"
  | some c => .ok (performanceAnalytics c call_id metric_type)

/-- POST /metrics/test (metrics_api.py lines 178 to 221): 503 without a
collector; otherwise set the test call id, record one synthetic metric of
each kind, and return the message with the resulting collector state. Clock
values and sampling draws for the four record calls are explicit. -/
def create_test_metrics (mc : Option MetricsCollector)
    (now1 r1 now2 r2 now3 r3 now4 r4 : ℚ) :
    ApiResult (MetricsCollector × String) :=
  match mc with
  | none => .httpError 503 "Metrics collection not available"
  | some c =>
    let c := c.set_call_id "test_call_123"
    let c := c.record_llm_metric now1 r1 (245 / 1000) 50 25 "gpt-4o" (12 / 10)
    let c := c.record_tts_metric now2 r2 (150 / 1000) (25 / 10) 25
      "eleven_turbo_v2_5" "Rachel"
    let c := c.record_asr_metric now3 r3 3 (5 / 10) 50 "nova-2" "en"
    let c := c.record_eou_metric now4 r4 (3 / 10) (95 / 100)
    .ok (c, "Test metrics created")

end MetricsApi

/-! Shared lemmas about the storage backends. -/

lemma memory_foldl_store (ops : List (String × MetricDict α))
    (st : List (MetricDict α)) :
    ops.foldl (fun s op => MemoryStorage.store_metric s op.1 op.2) st
      = st ++ ops.map (fun op => setMetricType op.1 op.2) := by
  induction ops generalizing st with
  | nil => simp
  | cons op rest ih =>
    rw [List.foldl_cons, ih]
    simp [MemoryStorage.store_metric]

lemma memory_run_eq (ops : List (String × MetricDict α)) :
    MemoryStorage.run ops = ops.map (fun op => setMetricType op.1 op.2) := by
  simpa [MemoryStorage.run] using memory_foldl_store ops []

lemma file_foldl_store (ops : List (String × MetricDict α))
    (st : List (MetricDict α)) :
    ops.foldl (fun s op => FileStorage.store_metric s op.1 op.2) (some st)
      = some (ops.foldl (fun s op => MemoryStorage.store_metric s op.1 op.2) st) := by
  induction ops generalizing st with
  | nil => rfl
  | cons op rest ih =>
    simpa [FileStorage.store_metric, MemoryStorage.store_metric] using ih _

lemma file_get_eq_memory_get (ops : List (String × MetricDict α))
    (cid mt : Option String) :
    FileStorage.get_metrics (FileStorage.run ops) cid mt
      = MemoryStorage.get_metrics (MemoryStorage.run ops) cid mt := by
  cases ops with
  | nil => simp [FileStorage.run, FileStorage.get_metrics, MemoryStorage.run,
      MemoryStorage.get_metrics]
  | cons op rest =>
    have hfile : FileStorage.run (op :: rest)
        = some (MemoryStorage.run (op :: rest)) := by
      have h0 : FileStorage.store_metric (none : FileStorage.State α) op.1 op.2
          = some (MemoryStorage.store_metric [] op.1 op.2) := rfl
      simp [FileStorage.run, MemoryStorage.run, h0, file_foldl_store]
    rw [hfile]
    rfl

lemma redis_listAt_lpush (st : RedisStorage.State α) (k A : String)
    (m : MetricDict α) :
    RedisStorage.listAt (RedisStorage.lpush st k m) A
      = if k = A then m :: RedisStorage.listAt st A
        else RedisStorage.listAt st A := by
  induction st with
  | nil =>
    by_cases h : k = A <;> simp [RedisStorage.lpush, RedisStorage.listAt, h]
  | cons p rest ih =>
    obtain ⟨k', l⟩ := p
    by_cases hk : k' = k
    · subst hk
      by_cases hA : k' = A <;> simp [RedisStorage.lpush, RedisStorage.listAt, hA]
    · by_cases hA : k' = A
      · subst hA
        have hkA : ¬ k = k' := fun hh => hk hh.symm
        simp [RedisStorage.lpush, RedisStorage.listAt, hk, hkA]
      · simp [RedisStorage.lpush, RedisStorage.listAt, hk, hA, ih]

lemma redis_foldl_listAt (ops : List (String × MetricDict α))
    (rst : RedisStorage.State α) (mst : List (MetricDict α))
    (hops : ∀ op ∈ ops, (op.2).call_id.isSome = true)
    (hinv : ∀ B, RedisStorage.listAt rst B
      = (mst.filter (fun m => m.call_id == some B)).reverse) (A : String) :
    RedisStorage.listAt
        (ops.foldl (fun s op => RedisStorage.store_metric s op.1 op.2) rst) A
      = ((ops.foldl (fun s op => MemoryStorage.store_metric s op.1 op.2) mst).filter
          (fun m => m.call_id == some A)).reverse := by
  induction ops generalizing rst mst with
  | nil => exact hinv A
  | cons op rest ih =>
    simp only [List.foldl_cons]
    apply ih
    · intro q hq
      exact hops q (List.mem_cons_of_mem _ hq)
    · intro B
      have hsome := hops op (List.mem_cons_self _ _)
      obtain ⟨s, hs⟩ := Option.isSome_iff_exists.mp hsome
      have hcall : (setMetricType op.1 op.2).call_id = some s := by
        simp [setMetricType, hs]
      have hkey : (setMetricType op.1 op.2).call_id.getD "unknown" = s := by
        simp [hcall]
      by_cases hB : s = B
      · subst hB
        simp [RedisStorage.store_metric, MemoryStorage.store_metric, hkey,
          redis_listAt_lpush, hinv, List.filter_append, hcall]
      · have hBs : ¬ (some s == some B) = true := by simp [hB]
        simp [RedisStorage.store_metric, MemoryStorage.store_metric, hkey,
          redis_listAt_lpush, hinv, List.filter_append, hB, hcall, hBs]

lemma sortQ_sorted (l : List ℚ) : (sortQ l).Sorted (· ≤ ·) :=
  List.sorted_insertionSort _ l

lemma sortQ_perm (l : List ℚ) : (sortQ l).Perm l :=
  List.perm_insertionSort _ l

/-! Settled claims. -/

/-- Claim C3, counterexample: the in-memory and redis backends do not return
the same sequence of records under the same call sequence. After storing two
llm records for call A in that order, a query filtered to call A returns the
records oldest-first from the in-memory backend but newest-first from the
redis backend, because redis writes use LPUSH. -/
theorem claim_C3_cex :
    RedisStorage.get_metrics
        (RedisStorage.run
          [("llm", (⟨some "A", none, 1⟩ : MetricDict Nat)),
           ("llm", (⟨some "A", none, 2⟩ : MetricDict Nat))])
        (some "A") none
      ≠ MemoryStorage.get_metrics
          (MemoryStorage.run
            [("llm", (⟨some "A", none, 1⟩ : MetricDict Nat)),
             ("llm", (⟨some "A", none, 2⟩ : MetricDict Nat))])
          (some "A") none := by
  decide

/-- Claim C3, amended: under the same call sequence the file backend returns
exactly what the in-memory backend returns, for every filter combination; the
redis backend, queried with a call filter over records that carry a call_id
field, returns the same records in reverse (newest-first) order. -/
theorem claim_C3_amended_backend_agreement :
    (∀ (α : Type) (ops : List (String × MetricDict α)) (cid mt : Option String),
      FileStorage.get_metrics (FileStorage.run ops) cid mt
        = MemoryStorage.get_metrics (MemoryStorage.run ops) cid mt)
    ∧ (∀ (α : Type) (ops : List (String × MetricDict α)) (A : String)
        (mt : Option String), A ≠ "" →
        (∀ op ∈ ops, (op.2).call_id.isSome = true) →
        RedisStorage.get_metrics (RedisStorage.run ops) (some A) mt
          = (MemoryStorage.get_metrics (MemoryStorage.run ops) (some A) mt).reverse) := by
  constructor
  · intro α ops cid mt
    exact file_get_eq_memory_get ops cid mt
  · intro α ops A mt hA hops
    have hAt : pyTruthy (some A) = true := by simp [pyTruthy, hA]
    have hlist : RedisStorage.listAt (RedisStorage.run ops) A
        = ((MemoryStorage.run ops).filter (fun m => m.call_id == some A)).reverse := by
      apply redis_foldl_listAt ops [] [] hops
      intro B
      simp [RedisStorage.listAt]
    cases mt with
    | none =>
      simp [RedisStorage.get_metrics, MemoryStorage.get_metrics, hAt, hlist,
        pyTruthy, hA]
    | some t =>
      by_cases ht : t = ""
      · subst ht
        simp [RedisStorage.get_metrics, MemoryStorage.get_metrics, hAt, hlist,
          pyTruthy, hA]
      · have htt : pyTruthy (some t) = true := by simp [pyTruthy, ht]
        simp [RedisStorage.get_metrics, MemoryStorage.get_metrics, hAt, htt,
          hlist, List.filter_reverse, hA]

/-- Claim C3, witness: the amended equivalence evaluated on the two-record
call sequence of the counterexample. -/
theorem claim_C3_witness :
    RedisStorage.get_metrics
        (RedisStorage.run
          [("llm", (⟨some "A", none, 1⟩ : MetricDict Nat)),
           ("llm", (⟨some "A", none, 2⟩ : MetricDict Nat))])
        (some "A") none
      = (MemoryStorage.get_metrics
          (MemoryStorage.run
            [("llm", (⟨some "A", none, 1⟩ : MetricDict Nat)),
             ("llm", (⟨some "A", none, 2⟩ : MetricDict Nat))])
          (some "A") none).reverse :=
  claim_C3_amended_backend_agreement.2 Nat
    [("llm", ⟨some "A", none, 1⟩), ("llm", ⟨some "A", none, 2⟩)]
    "A" none (by decide) (by decide)

/-- Claim C6: storing N records through the file backend and reading back
with no filters yields exactly the N stored records in order, each with its
original call_id and payload fields intact and the metric_type tag injected;
reading a nonexistent file or an empty file yields the empty list rather
than an error. -/
theorem claim_C6_file_roundtrip :
    ∀ (α : Type) (ops : List (String × MetricDict α)),
      FileStorage.get_metrics (FileStorage.run ops) none none
          = ops.map (fun op => setMetricType op.1 op.2)
      ∧ (FileStorage.get_metrics (FileStorage.run ops) none none).length
          = ops.length
      ∧ (∀ (cid mt : Option String),
          FileStorage.get_metrics (none : FileStorage.State α) cid mt = [])
      ∧ (∀ (cid mt : Option String),
          FileStorage.get_metrics (some ([] : List (MetricDict α))) cid mt = [])
      ∧ (∀ (t : String) (m : MetricDict α),
          (setMetricType t m).call_id = m.call_id
          ∧ (setMetricType t m).payload = m.payload
          ∧ (setMetricType t m).metric_type = some t) := by
  intro α ops
  have hget : FileStorage.get_metrics (FileStorage.run ops) none none
      = ops.map (fun op => setMetricType op.1 op.2) := by
    rw [file_get_eq_memory_get]
    simp [MemoryStorage.get_metrics, pyTruthy, memory_run_eq]
  refine ⟨hget, by simp [hget], ?_, ?_, ?_⟩
  · intro cid mt
    simp [FileStorage.get_metrics]
  · intro cid mt
    cases cid <;> cases mt <;> simp [FileStorage.get_metrics, pyTruthy]
  · intro t m
    exact ⟨rfl, rfl, rfl⟩

/-- Claim C7: storage filtering is conjunctive. For a nonempty call id A,
querying with both filters returns exactly the records whose call_id field
equals A and whose metric_type field equals llm, on both the in-memory and
the file backend; a query with no filters returns every stored record. -/
theorem claim_C7_conjunctive_filtering :
    ∀ (α : Type) (ms : List (MetricDict α)) (fs : FileStorage.State α)
      (A : String), A ≠ "" →
      MemoryStorage.get_metrics ms (some A) (some "llm")
          = ms.filter (fun m => m.call_id == some A && m.metric_type == some "llm")
      ∧ MemoryStorage.get_metrics ms none none = ms
      ∧ FileStorage.get_metrics fs (some A) (some "llm")
          = (fs.getD []).filter
              (fun m => m.call_id == some A && m.metric_type == some "llm")
      ∧ FileStorage.get_metrics fs none none = fs.getD [] := by
  intro α ms fs A hA
  have hAt : pyTruthy (some A) = true := by simp [pyTruthy, hA]
  have hmem : ∀ (l : List (MetricDict α)),
      (if pyTruthy (some "llm")
        then (if pyTruthy (some A)
          then l.filter (fun m => m.call_id == some A) else l).filter
            (fun m => m.metric_type == some "llm")
        else if pyTruthy (some A)
          then l.filter (fun m => m.call_id == some A) else l)
      = l.filter (fun m => m.call_id == some A && m.metric_type == some "llm") := by
    intro l
    rw [if_pos (by simp [pyTruthy]), if_pos hAt, List.filter_filter]
    exact List.filter_congr fun m _ => by rw [Bool.and_comm]
  refine ⟨?_, ?_, ?_, ?_⟩
  · simpa [MemoryStorage.get_metrics] using hmem ms
  · simp [MemoryStorage.get_metrics, pyTruthy]
  · cases fs with
    | none => simp [FileStorage.get_metrics]
    | some l => simpa [FileStorage.get_metrics] using hmem l
  · cases fs <;> simp [FileStorage.get_metrics, pyTruthy]

/-- Claim C7, witness: the conjunctive filter evaluated on a concrete store
holding three records, of which exactly one matches both predicates. -/
theorem claim_C7_witness :
    MemoryStorage.get_metrics
        [(⟨some "A", some "llm", 1⟩ : MetricDict Nat),
         ⟨some "B", some "llm", 2⟩, ⟨some "A", some "tts", 3⟩]
        (some "A") (some "llm")
      = List.filter
          (fun m => m.call_id == some "A" && m.metric_type == some "llm")
          [(⟨some "A", some "llm", 1⟩ : MetricDict Nat),
           ⟨some "B", some "llm", 2⟩, ⟨some "A", some "tts", 3⟩] :=
  (claim_C7_conjunctive_filtering Nat
    [⟨some "A", some "llm", 1⟩, ⟨some "B", some "llm", 2⟩,
     ⟨some "A", some "tts", 3⟩] none "A" (by decide)).1

/-- Claim C4: for every nonempty list of latency values the analytics p95
statistic is the element at index floor of 0.95 times n in the ascending
sorted list (any sorted permutation of the input); that index is always in
range, with the single-element case returning the element itself. In
particular for the tts ttfb values 0.1, 0.2, 0.3, 0.4, 0.5 the p95 is 0.5. -/
theorem claim_C4_p95_nearest_rank :
    (∀ (l l' : List ℚ), l ≠ [] → l'.Perm l → l'.Sorted (· ≤ ·) →
      l'[(19 * l.length) / 20]? = some (pythonP95 l))
    ∧ pythonP95 [1/10, 2/10, 3/10, 4/10, 5/10] = 1/2 := by
  constructor
  · intro l l' hne hperm hsort
    have hl' : l' = sortQ l :=
      List.eq_of_perm_of_sorted (hperm.trans (sortQ_perm l).symm) hsort
        (sortQ_sorted l)
    subst hl'
    have hlen : (sortQ l).length = l.length := (sortQ_perm l).length_eq
    have hpos : 0 < l.length := List.length_pos.mpr hne
    have hidx : 19 * l.length / 20 < l.length := by
      rw [Nat.div_lt_iff_lt_mul (by norm_num)]
      omega
    have hidx' : 19 * l.length / 20 < (sortQ l).length := by
      rw [hlen]; exact hidx
    by_cases h1 : l.length > 1
    · rw [pythonP95, if_pos h1, List.getElem?_eq_getElem hidx',
        List.getD_eq_getElem _ _ hidx']
    · have hlen1 : l.length = 1 := by omega
      match l, hlen1 with
      | [x], _ =>
        simp [pythonP95, sortQ, List.insertionSort, List.orderedInsert]
  · norm_num [pythonP95, sortQ, List.insertionSort, List.orderedInsert]

/-- Claim C4, witness: the general nearest-rank statement evaluated on the
tts ttfb list of the specification example, whose sorted permutation is the
list itself; the p95 index is 4 and the value is the maximum 0.5. -/
theorem claim_C4_witness :
    (([1/10, 2/10, 3/10, 4/10, 5/10] : List ℚ))[(19 * ([1/10, 2/10, 3/10, 4/10, 5/10] : List ℚ).length) / 20]?
      = some (pythonP95 [1/10, 2/10, 3/10, 4/10, 5/10]) :=
  claim_C4_p95_nearest_rank.1 [1/10, 2/10, 3/10, 4/10, 5/10]
    [1/10, 2/10, 3/10, 4/10, 5/10] (by simp) (List.Perm.refl _)
    (by simp [List.sorted_cons]; norm_num)

/-- Claim C2, counterexample: with the collector never initialized, GET
/health does not respond 503; it responds 200 with a healthy body reporting
metrics_enabled false. -/
theorem claim_C2_cex :
    (MetricsApi.health_check none).statusOf ≠ 503
      ∧ MetricsApi.health_check none
          = .ok { status := "healthy", metrics_enabled := false } := by
  constructor
  · decide
  · rfl

/-- Claim C2, amended: when the collector was never initialized every
endpoint of the query service except GET /health responds 503; GET /health
responds 200 with metrics_enabled false. -/
theorem claim_C2_amended_503 :
    (∀ cid, (MetricsApi.get_call_metrics none cid).statusOf = 503)
    ∧ (∀ cid, (MetricsApi.get_call_summary none cid).statusOf = 503)
    ∧ (∀ cid mt lim,
        (MetricsApi.get_call_metrics_by_type none cid mt lim).statusOf = 503)
    ∧ (∀ cid mt,
        (MetricsApi.get_performance_analytics none cid mt).statusOf = 503)
    ∧ (∀ n1 r1 n2 r2 n3 r3 n4 r4,
        (MetricsApi.create_test_metrics none n1 r1 n2 r2 n3 r3 n4 r4).statusOf = 503)
    ∧ (MetricsApi.health_check none).statusOf = 200 :=
  ⟨fun _ => rfl, fun _ => rfl, fun _ _ _ => rfl, fun _ _ => rfl,
    fun _ _ _ _ _ _ _ _ => rfl, rfl⟩

/-- Claim C1, counterexample: against a backend whose store_metric raises,
a record_llm_metric call with collection fully enabled does not return
normally to its awaiter; the backend failure propagates out of the call,
because the source awaits self.storage.store_metric with no surrounding
try/except and performs no logging or dropping of the failed record. -/
theorem claim_C1_cex :
    recordLLMMetricE ⟨fun _ _ _ => .error "disk full"⟩
        { enabled := true } none () 0 0 0 0 0 "gpt-4o" 1
      = .error "disk full" := by
  rfl

/-- Claim C1, amended: the collector's record operations do propagate a
failing backend write to their awaiter: over any backend, a record call
returns the backend error exactly when the collection gate passes and the
store fails, and returns normally with the state unchanged whenever the gate
does not pass. Isolation of the conversational path is provided only at the
instrumentation call sites, which schedule these coroutines as detached
background tasks. -/
theorem claim_C1_amended_propagation :
    ∀ (σ : Type) (S : StorageModel σ) (cfg : MetricsConfig)
      (cur : Option String) (st : σ) (now r ttft total ttfb ad pt ed conf : ℚ)
      (itk otk tl : Int) (model voice lang : String) (e : String),
      (recordLLMMetricE S cfg cur st now r ttft itk otk model total = .error e
        ↔ (cfg.collect_llm_metrics && shouldCollect cfg r) = true
          ∧ S.store_metric st "llm"
              (mkLLMMetric now cur ttft itk otk model total) = .error e)
      ∧ (recordTTSMetricE S cfg cur st now r ttfb ad tl model voice = .error e
        ↔ (cfg.collect_tts_metrics && shouldCollect cfg r) = true
          ∧ S.store_metric st "tts"
              (mkTTSMetric now cur ttfb ad tl model voice) = .error e)
      ∧ (recordASRMetricE S cfg cur st now r ad pt tl model lang = .error e
        ↔ (cfg.collect_asr_metrics && shouldCollect cfg r) = true
          ∧ S.store_metric st "asr"
              (mkASRMetric now cur ad pt tl model lang) = .error e)
      ∧ (recordEOUMetricE S cfg cur st now r ed conf = .error e
        ↔ (cfg.collect_eou_metrics && shouldCollect cfg r) = true
          ∧ S.store_metric st "eou"
              (mkEOUMetric now cur ed conf) = .error e)
      ∧ ((cfg.collect_llm_metrics && shouldCollect cfg r) = false →
          recordLLMMetricE S cfg cur st now r ttft itk otk model total = .ok st) := by
  intro σ S cfg cur st now r ttft total ttfb ad pt ed conf itk otk tl model
    voice lang e
  refine ⟨?_, ?_, ?_, ?_, ?_⟩
  · by_cases h : (cfg.collect_llm_metrics && shouldCollect cfg r) = true <;>
      simp [recordLLMMetricE, h]
  · by_cases h : (cfg.collect_tts_metrics && shouldCollect cfg r) = true <;>
      simp [recordTTSMetricE, h]
  · by_cases h : (cfg.collect_asr_metrics && shouldCollect cfg r) = true <;>
      simp [recordASRMetricE, h]
  · by_cases h : (cfg.collect_eou_metrics && shouldCollect cfg r) = true <;>
      simp [recordEOUMetricE, h]
  · intro h
    simp [recordLLMMetricE, h]

/-- Claim C1, witness: the propagation characterization evaluated against the
always-failing backend with collection disabled, where the gate is false and
the call returns normally without touching the backend. -/
theorem claim_C1_witness :
    recordLLMMetricE (⟨fun _ _ _ => .error "disk full"⟩ : StorageModel Unit)
        {} none () 0 0 0 0 0 "gpt-4o" 1 = .ok () :=
  (claim_C1_amended_propagation Unit ⟨fun _ _ _ => .error "disk full"⟩ {} none
    () 0 0 0 1 0 0 0 0 0 0 0 0 "gpt-4o" "v" "en" "disk full").2.2.2.2 (by rfl)

/-- Claim C5: a record call stores exactly one record if and only if
collection is globally enabled, the flag of its kind is on and the uniform
draw lies below the sampling rate (stated for tts; the gate is identical for
every kind). Consequently, with sample_rate 0 no kind ever stores; with
sample_rate 1 every enabled call of an enabled kind appends exactly its one
record; and turning collect_tts_metrics off yields no tts records while llm
records are still stored. The draw r satisfies 0 <= r < 1 as random.random
guarantees. -/
theorem claim_C5_sampling :
    ∀ (cfg : MetricsConfig) (cur : Option String)
      (ms : List (MetricDict MetricPayload)) (now r ttft total ttfb ad : ℚ)
      (itk otk tl : Int) (model voice : String),
      0 ≤ r → r < 1 →
      (((⟨cfg, cur, ms⟩ : MetricsCollector).record_tts_metric now r ttfb ad
          tl model voice).metrics
          = ms ++ [setMetricType "tts" (mkTTSMetric now cur ttfb ad tl model voice)]
        ↔ cfg.enabled = true ∧ cfg.collect_tts_metrics = true ∧ r < cfg.sample_rate)
      ∧ (¬(cfg.enabled = true ∧ cfg.collect_tts_metrics = true ∧ r < cfg.sample_rate) →
          (⟨cfg, cur, ms⟩ : MetricsCollector).record_tts_metric now r ttfb ad
              tl model voice
            = ⟨cfg, cur, ms⟩)
      ∧ (cfg.sample_rate = 0 →
          (⟨cfg, cur, ms⟩ : MetricsCollector).record_tts_metric now r ttfb ad
              tl model voice = ⟨cfg, cur, ms⟩
          ∧ (⟨cfg, cur, ms⟩ : MetricsCollector).record_llm_metric now r ttft
              itk otk model total = ⟨cfg, cur, ms⟩
          ∧ (⟨cfg, cur, ms⟩ : MetricsCollector).record_asr_metric now r ad
              total tl model voice = ⟨cfg, cur, ms⟩
          ∧ (⟨cfg, cur, ms⟩ : MetricsCollector).record_eou_metric now r ttfb ad
              = ⟨cfg, cur, ms⟩)
      ∧ (cfg.sample_rate = 1 → cfg.enabled = true → cfg.collect_tts_metrics = true →
          ((⟨cfg, cur, ms⟩ : MetricsCollector).record_tts_metric now r ttfb ad
              tl model voice).metrics
            = ms ++ [setMetricType "tts" (mkTTSMetric now cur ttfb ad tl model voice)])
      ∧ (cfg.collect_tts_metrics = false →
          (⟨cfg, cur, ms⟩ : MetricsCollector).record_tts_metric now r ttfb ad
              tl model voice = ⟨cfg, cur, ms⟩)
      ∧ (cfg.collect_tts_metrics = false → cfg.enabled = true →
          cfg.collect_llm_metrics = true → r < cfg.sample_rate →
          ((⟨cfg, cur, ms⟩ : MetricsCollector).record_llm_metric now r ttft
              itk otk model total).metrics
            = ms ++ [setMetricType "llm" (mkLLMMetric now cur ttft itk otk model total)]) := by
  intro cfg cur ms now r ttft total ttfb ad itk otk tl model voice h0 h1
  refine ⟨?_, ?_, ?_, ?_, ?_, ?_⟩
  · by_cases he : cfg.enabled <;> by_cases hf : cfg.collect_tts_metrics <;>
      by_cases hr : r < cfg.sample_rate <;>
      simp [MetricsCollector.record_tts_metric, MemoryStorage.store_metric,
        shouldCollect, he, hf, hr]
  · intro h
    by_cases he : cfg.enabled <;> by_cases hf : cfg.collect_tts_metrics <;>
      by_cases hr : r < cfg.sample_rate <;>
      simp [he, hf, hr] at h <;>
      simp [MetricsCollector.record_tts_metric, shouldCollect, he, hf, hr]
  · intro hz
    have hnr : ¬ r < cfg.sample_rate := by rw [hz]; exact not_lt.mpr h0
    refine ⟨?_, ?_, ?_, ?_⟩ <;>
      simp [MetricsCollector.record_tts_metric, MetricsCollector.record_llm_metric,
        MetricsCollector.record_asr_metric, MetricsCollector.record_eou_metric,
        shouldCollect, hnr]
  · intro hz he hf
    have hr : r < cfg.sample_rate := by rw [hz]; exact h1
    simp [MetricsCollector.record_tts_metric, MemoryStorage.store_metric,
      shouldCollect, he, hf, hr]
  · intro hf
    simp [MetricsCollector.record_tts_metric, shouldCollect, hf]
  · intro hf he hl hr
    simp [MetricsCollector.record_llm_metric, MemoryStorage.store_metric,
      shouldCollect, he, hl, hr]

/-- Claim C5, witness: the store-iff-gate equivalence evaluated at an enabled
configuration with sampling rate one and the draw zero. -/
theorem claim_C5_witness :
    ((⟨{ enabled := true }, some "call1", [] ⟩ : MetricsCollector).record_tts_metric
        0 0 (15 / 100) (25 / 10) 25 "gpt-4o" "Rachel").metrics
      = [] ++ [setMetricType "tts"
          (mkTTSMetric 0 (some "call1") (15 / 100) (25 / 10) 25 "gpt-4o" "Rachel")]
      ↔ ({ enabled := true } : MetricsConfig).enabled = true
        ∧ ({ enabled := true } : MetricsConfig).collect_tts_metrics = true
        ∧ (0 : ℚ) < ({ enabled := true } : MetricsConfig).sample_rate :=
  (claim_C5_sampling { enabled := true } (some "call1") [] 0 0 0 0 (15 / 100)
    (25 / 10) 0 0 25 "gpt-4o" "Rachel" (by norm_num) (by norm_num)).1

/-- Claim C8: the tokens_per_second field of every record built by
record_llm_metric is derived from the other inputs: it equals
output_tokens / total_time when total_time is positive and is exactly 0 when
total_time is 0; and the record path never sets it independently, since the
stored record is always exactly the built one (or nothing is stored). -/
theorem claim_C8_tokens_per_second :
    ∀ (now : ℚ) (cur : Option String) (ttft : ℚ) (itk otk : Int)
      (model : String) (total : ℚ),
      (total > 0 →
        tokensPerSecondOf (mkLLMMetric now cur ttft itk otk model total).payload
          = (otk : ℚ) / total)
      ∧ (total = 0 →
        tokensPerSecondOf (mkLLMMetric now cur ttft itk otk model total).payload = 0)
      ∧ (∀ (c : MetricsCollector) (r : ℚ),
          (c.record_llm_metric now r ttft itk otk model total).metrics = c.metrics
          ∨ (c.record_llm_metric now r ttft itk otk model total).metrics
              = c.metrics ++ [setMetricType "llm"
                  (mkLLMMetric now c.current_call_id ttft itk otk model total)]) := by
  intro now cur ttft itk otk model total
  refine ⟨?_, ?_, ?_⟩
  · intro h
    simp [mkLLMMetric, tokensPerSecondOf, h]
  · intro h
    simp [mkLLMMetric, tokensPerSecondOf, h]
  · intro c r
    by_cases h : (c.config.collect_llm_metrics && shouldCollect c.config r) = true
    · right
      simp [MetricsCollector.record_llm_metric, h, MemoryStorage.store_metric]
    · left
      simp [MetricsCollector.record_llm_metric, h]

/-- Claim C8, witness: with 10 output tokens over 2 seconds the stored
tokens_per_second is 10 / 2. -/
theorem claim_C8_witness :
    tokensPerSecondOf (mkLLMMetric 0 none 0 5 10 "gpt-4o" 2).payload
      = (10 : ℚ) / 2 :=
  (claim_C8_tokens_per_second 0 none 0 5 10 "gpt-4o" 2).1 (by norm_num)

/-- Claim C9: the summary contains a per-kind section exactly when at least
one record of that kind exists for the call; a kind with zero records is
omitted (the optional section is none, modelling the absent dict key). In
particular a call holding one llm record and no asr records summarises with
an llm section present and no asr section. -/
theorem claim_C9_summary_omission :
    (∀ (c : MetricsCollector) (cid : Option String),
      ((c.get_call_summary cid).llm.isSome = true
        ↔ (c.get_call_metrics cid).llm ≠ [])
      ∧ ((c.get_call_summary cid).tts.isSome = true
        ↔ (c.get_call_metrics cid).tts ≠ [])
      ∧ ((c.get_call_summary cid).asr.isSome = true
        ↔ (c.get_call_metrics cid).asr ≠ [])
      ∧ ((c.get_call_summary cid).eou.isSome = true
        ↔ (c.get_call_metrics cid).eou ≠ []))
    ∧ ((⟨{ enabled := true }, some "call1",
          [⟨some "call1", some "llm", .llm 0 0 0 0 "m" 0 0⟩]⟩ :
            MetricsCollector).get_call_summary (some "call1")).asr = none
    ∧ ((⟨{ enabled := true }, some "call1",
          [⟨some "call1", some "llm", .llm 0 0 0 0 "m" 0 0⟩]⟩ :
            MetricsCollector).get_call_summary (some "call1")).llm.isSome = true := by
  refine ⟨?_, ?_, ?_⟩
  · intro c cid
    refine ⟨?_, ?_, ?_, ?_⟩
    · by_cases h : (c.get_call_metrics cid).llm = [] <;>
        simp [MetricsCollector.get_call_summary, h]
    · by_cases h : (c.get_call_metrics cid).tts = [] <;>
        simp [MetricsCollector.get_call_summary, h]
    · by_cases h : (c.get_call_metrics cid).asr = [] <;>
        simp [MetricsCollector.get_call_summary, h]
    · by_cases h : (c.get_call_metrics cid).eou = [] <;>
        simp [MetricsCollector.get_call_summary, h]
  · rfl
  · rfl

/-- Claim C10: the collector treats empty strings as absent. A record built
while the current call id is unset or the empty string carries call_id
"unknown", for every kind, and whatever a record operation stores is either a
previously stored record or one carrying call_id "unknown"; a storage query
whose call_id or metric_type argument is the empty string behaves exactly as
if that filter were omitted, and with both filters empty returns every
stored record; the collector-level per-call query with an empty-string
call_id coincides with the query with the argument omitted. -/
theorem claim_C10_empty_string_absent :
    ∀ (cur : Option String) (now r ttft total ttfb ad pt ed conf : ℚ)
      (itk otk tl : Int) (model voice lang : String),
      cur = none ∨ cur = some "" →
      ((mkLLMMetric now cur ttft itk otk model total).call_id = some "unknown"
        ∧ (mkTTSMetric now cur ttfb ad tl model voice).call_id = some "unknown"
        ∧ (mkASRMetric now cur ad pt tl model lang).call_id = some "unknown"
        ∧ (mkEOUMetric now cur ed conf).call_id = some "unknown")
      ∧ (∀ (cfg : MetricsConfig) (ms : List (MetricDict MetricPayload)),
          (∀ m ∈ ((⟨cfg, cur, ms⟩ : MetricsCollector).record_llm_metric now r
              ttft itk otk model total).metrics,
            m ∈ ms ∨ m.call_id = some "unknown")
          ∧ (∀ m ∈ ((⟨cfg, cur, ms⟩ : MetricsCollector).record_tts_metric now r
              ttfb ad tl model voice).metrics,
            m ∈ ms ∨ m.call_id = some "unknown")
          ∧ (∀ m ∈ ((⟨cfg, cur, ms⟩ : MetricsCollector).record_asr_metric now r
              ad pt tl model lang).metrics,
            m ∈ ms ∨ m.call_id = some "unknown")
          ∧ (∀ m ∈ ((⟨cfg, cur, ms⟩ : MetricsCollector).record_eou_metric now r
              ed conf).metrics,
            m ∈ ms ∨ m.call_id = some "unknown"))
      ∧ (∀ (α : Type) (ms : List (MetricDict α)) (mt : Option String),
          MemoryStorage.get_metrics ms (some "") mt
            = MemoryStorage.get_metrics ms none mt)
      ∧ (∀ (α : Type) (ms : List (MetricDict α)) (cid : Option String),
          MemoryStorage.get_metrics ms cid (some "")
            = MemoryStorage.get_metrics ms cid none)
      ∧ (∀ (α : Type) (ms : List (MetricDict α)),
          MemoryStorage.get_metrics ms (some "") (some "") = ms)
      ∧ (∀ (c : MetricsCollector),
          c.get_call_metrics (some "") = c.get_call_metrics none) := by
  intro cur now r ttft total ttfb ad pt ed conf itk otk tl model voice lang hcur
  have hunk : pyOrUnknown cur = "unknown" := by
    rcases hcur with h | h <;> subst h <;> simp [pyOrUnknown]
  refine ⟨?_, ?_, ?_, ?_, ?_, ?_⟩
  · exact ⟨by simp [mkLLMMetric, hunk], by simp [mkTTSMetric, hunk],
      by simp [mkASRMetric, hunk], by simp [mkEOUMetric, hunk]⟩
  · intro cfg ms
    refine ⟨?_, ?_, ?_, ?_⟩ <;>
      · intro m hm
        simp only [MetricsCollector.record_llm_metric,
          MetricsCollector.record_tts_metric, MetricsCollector.record_asr_metric,
          MetricsCollector.record_eou_metric, MemoryStorage.store_metric] at hm
        split at hm
        · rcases List.mem_append.mp hm with h | h
          · exact Or.inl h
          · right
            rcases List.mem_singleton.mp h with rfl
            simp [setMetricType, mkLLMMetric, mkTTSMetric, mkASRMetric,
              mkEOUMetric, hunk]
        · exact Or.inl hm
  · intro α ms mt
    simp [MemoryStorage.get_metrics, pyTruthy]
  · intro α ms cid
    simp [MemoryStorage.get_metrics, pyTruthy]
  · intro α ms
    simp [MemoryStorage.get_metrics, pyTruthy]
  · intro c
    simp [MetricsCollector.get_call_metrics, pyOrOpt]

/-- Claim C10, witness: a record built with no current call id carries
call_id "unknown". -/
theorem claim_C10_witness :
    (mkLLMMetric 0 none 0 50 25 "gpt-4o" 1).call_id = some "unknown" :=
  (claim_C10_empty_string_absent none 0 0 0 1 0 0 0 0 0 50 25 0 "gpt-4o" "v"
    "en" (Or.inl rfl)).1.1

end Metrics
